import Mathlib

/-!
Verification of the weather backend (`src/backend/main.py`).

The backend accepts a weather lookup request (date, location, notes),
forwards the location to the WeatherStack provider, stores the combined
result keyed by a generated identifier in the in-memory dictionary
`weather_storage`, and exposes four read endpoints: the full record and
three sub-views (astronomy, precise location, air quality).

This file shallowly embeds the handlers as pure Lean functions over an
explicit store, models the provider's observable behaviour as a datatype,
and proves the specification claims about them.
-/

namespace WeatherSystem

/-- Parsed JSON values, as produced by `response.json()` in the backend. -/
inductive Json where
  | null : Json
  | bool (b : Bool) : Json
  | num (n : Int) : Json
  | str (s : String) : Json
  | arr (elems : List Json) : Json
  | obj (fields : List (String × Json)) : Json

/-- Substring test on character lists, used to model Python's
`"error" in s` when `s` is a string (substring containment). -/
def charsContain (needle : List Char) : List Char → Bool
  | [] => needle.isEmpty
  | c :: rest => needle.isPrefixOf (c :: rest) || charsContain needle rest

/-- Key test on the field list of a JSON object, used to model Python's
`"error" in d` when `d` is a dict (key containment). -/
def hasErrorKey : List (String × Json) → Bool
  | [] => false
  | (k, _) :: rest => if k = "error" then true else hasErrorKey rest

/-- Result of evaluating Python's `"error" in weather_data` on a parsed
JSON value: dicts test keys, lists test element equality, strings test
substring containment, and every other type raises `TypeError`
(which the handler's blanket `except Exception` turns into a 500). -/
inductive InTest where
  | ok (found : Bool)
  | typeError

/-- `"error" in weather_data` (line 60 of `main.py`) on each JSON shape. -/
def errorIn : Json → InTest
  | .obj fields => .ok (hasErrorKey fields)
  | .arr elems => .ok (elems.any fun e => match e with
      | .str s => s = "error"
      | _ => false)
  | .str s => .ok (charsContain "error".toList s.toList)
  | _ => .typeError

/-- Field lookup in a JSON object; `none` models both `KeyError` (key
absent from a dict) and `TypeError` (indexing a non-dict with a string
key), both of which the sub-view handlers catch identically. -/
def jsonGet : Json → String → Option Json
  | .obj fields, key => lookupField fields key
  | _, _ => none
where
  lookupField : List (String × Json) → String → Option Json
    | [], _ => none
    | (k, v) :: rest, key => if key = k then some v else lookupField rest key

/-- The request body of `POST /weather`: `date` and `location` are
required strings, `notes` is optional with default `""`
(the `WeatherRequest` pydantic model). `none` models a JSON `null`. -/
structure WeatherRequest where
  date : String
  location : String
  notes : Option String := some ""

/-- JSON encoding of the `notes` field as stored and serialized. -/
def notesJson : Option String → Json
  | some s => .str s
  | none => .null

/-- The observable behaviour of the provider call
`await client.get(WeatherStackURL, params=params)` followed by
`response.json()`:
* `requestError msg` — the network call raises `httpx.RequestError`
  (DNS, connection, timeout), carrying the exception's string;
* `completed status body` — a response arrives with HTTP status code
  `status`; `body = none` means `response.json()` raises (malformed
  JSON), `body = some j` means it parses to `j`.
Note `httpx` raises `HTTPStatusError` only from `raise_for_status()`,
which `main.py` never calls, so a non-success `status` by itself raises
nothing. -/
inductive ProviderBehavior where
  | requestError (msg : String)
  | completed (status : Nat) (body : Option Json)

/-- The in-memory store `weather_storage : Dict[str, Dict[str, Any]]`,
modelled as a partial map from identifier to stored JSON record. -/
def Store : Type := String → Option Json

/-- `weather_storage = {}` at startup. -/
def emptyStorage : Store := fun _ => none

/-- `weather_storage[weather_id] = combined_data` (line 71): dictionary
assignment, last write wins. -/
def insertRecord (storage : Store) (key : String) (record : Json) : Store :=
  fun q => if q = key then some record else storage q

/-- The `combined_data` dict assembled on lines 63-69: exactly the five
keys `"weather id"`, `"date"`, `"location"`, `"notes"`,
`"weather_api_response"`, in that order. -/
def combined_data (request : WeatherRequest) (weather_id : String)
    (weather_data : Json) : Json :=
  .obj [("weather id", .str weather_id),
        ("date", .str request.date),
        ("location", .str request.location),
        ("notes", notesJson request.notes),
        ("weather_api_response", weather_data)]

/-- Outcome of `POST /weather`: either the `WeatherResponse {id}` or an
`HTTPException` with a status code and a `detail` message. -/
inductive CreateResult where
  | success (id : String)
  | failure (status : Nat) (detail : String)

/-- The `POST /weather` handler `create_weather_request`, over an
explicit store and an explicit fresh identifier (`str(uuid.uuid4())`).

Control flow of `main.py` lines 53-81:
* `httpx.RequestError` → 502 with the exception text (line 75);
* `response.json()` raising → falls to `except Exception` → 500
  `"Internal Server Errors"` (line 81);
* `"error" in weather_data` raising `TypeError` → same 500;
* `"error" in weather_data` true → line 61 raises
  `HTTPException(400, "WeatherStack API Error")`, but that exception is
  itself caught by the blanket `except Exception` on line 80, so the
  caller observes 500 `"Internal Server Errors"`;
* otherwise → insert `combined_data` under the fresh id and return it.
The `except httpx.HTTPStatusError` branch (lines 77-78) is unreachable:
`raise_for_status()` is never called, so the HTTP status code of a
completed response is never consulted. -/
def create_weather_request (request : WeatherRequest)
    (provider : ProviderBehavior) (weather_id : String)
    (storage : Store) : CreateResult × Store :=
  match provider with
  | .requestError msg =>
      (.failure 502 ("Network Error: " ++ msg), storage)
  | .completed _ none =>
      (.failure 500 "Internal Server Errors", storage)
  | .completed _ (some weather_data) =>
      match errorIn weather_data with
      | .typeError => (.failure 500 "Internal Server Errors", storage)
      | .ok true => (.failure 500 "Internal Server Errors", storage)
      | .ok false =>
          (.success weather_id,
           insertRecord storage weather_id
             (combined_data request weather_id weather_data))

/-- Outcome of a `GET` endpoint: a JSON payload or an `HTTPException`. -/
inductive ReadResult where
  | ok (payload : Json)
  | failure (status : Nat) (detail : String)

/-- `GET /weather/{weather_id}` (lines 129-138): returns the full
stored record verbatim or 404. The handler never writes the store; the
returned store is the input store. -/
def get_weather_data (weather_id : String) (storage : Store) :
    ReadResult × Store :=
  match storage weather_id with
  | none => (.failure 404 "Weather data not found", storage)
  | some data => (.ok data, storage)

/-- The traversal `data["weather_api_response"]["current"]["astro"]`
(line 93); `none` models any `KeyError`/`TypeError` along the path. -/
def astroPath (data : Json) : Option Json :=
  (jsonGet data "weather_api_response").bind fun r =>
    (jsonGet r "current").bind fun c => jsonGet c "astro"

/-- The traversal `data["weather_api_response"]["location"]`
(line 108). -/
def locationPath (data : Json) : Option Json :=
  (jsonGet data "weather_api_response").bind fun r => jsonGet r "location"

/-- The traversal `data["weather_api_response"]["current"]["air_quality"]`
(line 123). -/
def airQualityPath (data : Json) : Option Json :=
  (jsonGet data "weather_api_response").bind fun r =>
    (jsonGet r "current").bind fun c => jsonGet c "air_quality"

/-- `GET /weather/astro/{weather_id}` (lines 83-96). -/
def get_astronomy_data (weather_id : String) (storage : Store) :
    ReadResult × Store :=
  match storage weather_id with
  | none => (.failure 404 "Weather data not found", storage)
  | some data =>
      match astroPath data with
      | some astro => (.ok astro, storage)
      | none => (.failure 404 "No data available", storage)

/-- `GET /weather/location/{weather_id}` (lines 98-111). -/
def get_precise_location (weather_id : String) (storage : Store) :
    ReadResult × Store :=
  match storage weather_id with
  | none => (.failure 404 "Weather data not found", storage)
  | some data =>
      match locationPath data with
      | some location => (.ok location, storage)
      | none => (.failure 404 "No data available", storage)

/-- `GET /weather/air-quality/{weather_id}` (lines 113-126). -/
def get_air_quality_data (weather_id : String) (storage : Store) :
    ReadResult × Store :=
  match storage weather_id with
  | none => (.failure 404 "Weather data not found", storage)
  | some data =>
      match airQualityPath data with
      | some air => (.ok air, storage)
      | none => (.failure 404 "No data available", storage)

/-- Whether a provider behaviour reaches the blanket `except Exception`
branch (lines 80-81): the body fails to parse, the `"error" in ...`
test raises `TypeError`, or the test succeeds and line 61's
`HTTPException(400)` is raised and then caught by that same branch. -/
def internalBranch : ProviderBehavior → Bool
  | .requestError _ => false
  | .completed _ none => true
  | .completed _ (some weather_data) =>
      match errorIn weather_data with
      | .typeError => true
      | .ok found => found

/-- Store states reachable from startup by any sequence of handler
invocations. Read handlers return their input store unchanged; the
create handler is the only writer. -/
inductive Reachable : Store → Prop where
  | start : Reachable emptyStorage
  | create (request : WeatherRequest) (provider : ProviderBehavior)
      (weather_id : String) {s : Store} :
      Reachable s →
      Reachable (create_weather_request request provider weather_id s).2
  | readFull (weather_id : String) {s : Store} :
      Reachable s → Reachable (get_weather_data weather_id s).2
  | readAstro (weather_id : String) {s : Store} :
      Reachable s → Reachable (get_astronomy_data weather_id s).2
  | readLocation (weather_id : String) {s : Store} :
      Reachable s → Reachable (get_precise_location weather_id s).2
  | readAirQuality (weather_id : String) {s : Store} :
      Reachable s → Reachable (get_air_quality_data weather_id s).2

/-! ### Concrete fixtures used by witnesses -/

/-- The example request from the spec:
`{"date":"2024-01-01","location":"Paris","notes":"trip"}`. -/
def req0 : WeatherRequest :=
  { date := "2024-01-01", location := "Paris", notes := some "trip" }

/-- A parsed provider body with no `"error"` key and no astronomy,
location or air-quality section. -/
def body0 : Json := .obj [("request", .str "q")]

/-- A completed provider call with HTTP status 200 and body `body0`. -/
def provider0 : ProviderBehavior := .completed 200 (some body0)

/-- The store after one successful creation from the empty store. -/
def store1 : Store := (create_weather_request req0 provider0 "id1" emptyStorage).2

/-- The record stored by that creation. -/
def record1 : Json := combined_data req0 "id1" body0

/-! ### Helper lemmas -/

/-- Every run of the create handler either succeeds, returning the fresh
identifier and inserting exactly the combined record for some parsed
body, or fails leaving the store untouched. -/
lemma create_characterization (request : WeatherRequest)
    (provider : ProviderBehavior) (weather_id : String) (storage : Store) :
    (∃ weather_data,
       create_weather_request request provider weather_id storage =
         (.success weather_id,
          insertRecord storage weather_id
            (combined_data request weather_id weather_data)))
    ∨ (∃ status detail,
       create_weather_request request provider weather_id storage =
         (.failure status detail, storage)) := by
  cases provider with
  | requestError msg => exact .inr ⟨502, _, rfl⟩
  | completed status body =>
    cases body with
    | none => exact .inr ⟨500, _, rfl⟩
    | some weather_data =>
      cases herr : errorIn weather_data with
      | typeError =>
        exact .inr ⟨500, "Internal Server Errors",
          by simp [create_weather_request, herr]⟩
      | ok found =>
        cases found with
        | false => exact .inl ⟨weather_data, by simp [create_weather_request, herr]⟩
        | true =>
          exact .inr ⟨500, "Internal Server Errors",
            by simp [create_weather_request, herr]⟩

/-- The full-record handler never writes the store. -/
lemma get_weather_data_store (weather_id : String) (storage : Store) :
    (get_weather_data weather_id storage).2 = storage := by
  unfold get_weather_data
  cases storage weather_id <;> rfl

/-- The astronomy handler never writes the store. -/
lemma get_astronomy_data_store (weather_id : String) (storage : Store) :
    (get_astronomy_data weather_id storage).2 = storage := by
  unfold get_astronomy_data
  cases storage weather_id with
  | none => rfl
  | some data =>
    dsimp only
    cases astroPath data <;> rfl

/-- The location handler never writes the store. -/
lemma get_precise_location_store (weather_id : String) (storage : Store) :
    (get_precise_location weather_id storage).2 = storage := by
  unfold get_precise_location
  cases storage weather_id with
  | none => rfl
  | some data =>
    dsimp only
    cases locationPath data <;> rfl

/-- The air-quality handler never writes the store. -/
lemma get_air_quality_data_store (weather_id : String) (storage : Store) :
    (get_air_quality_data weather_id storage).2 = storage := by
  unfold get_air_quality_data
  cases storage weather_id with
  | none => rfl
  | some data =>
    dsimp only
    cases airQualityPath data <;> rfl

/-- Any provider behaviour reaching the blanket `except Exception`
branch yields the constant 500 response of line 81. -/
lemma internal_branch_result (request : WeatherRequest)
    (provider : ProviderBehavior) (weather_id : String) (storage : Store)
    (h : internalBranch provider = true) :
    (create_weather_request request provider weather_id storage).1 =
      .failure 500 "Internal Server Errors" := by
  cases provider with
  | requestError msg => simp [internalBranch] at h
  | completed status body =>
    cases body with
    | none => rfl
    | some weather_data =>
      cases herr : errorIn weather_data with
      | typeError => simp [create_weather_request, herr]
      | ok found =>
        have hf : found = true := by simpa [internalBranch, herr] using h
        subst hf
        simp [create_weather_request, herr]

/-- Store component of any create run: either exactly one insert of the
combined record, or the unchanged input store. -/
lemma create_store_cases (request : WeatherRequest)
    (provider : ProviderBehavior) (weather_id : String) (storage : Store) :
    (∃ weather_data,
       (create_weather_request request provider weather_id storage).2 =
         insertRecord storage weather_id
           (combined_data request weather_id weather_data))
    ∨ (create_weather_request request provider weather_id storage).2 =
        storage := by
  rcases create_characterization request provider weather_id storage with
    ⟨weather_data, heq⟩ | ⟨status, detail, heq⟩
  · exact .inl ⟨weather_data, by rw [heq]⟩
  · exact .inr (by rw [heq])

/-! ### Claims -/

/-- C1: the claim says a provider body with a top-level `"error"` key
makes creation fail with HTTP 400 and a provider-side detail. The code
intends this (line 61 raises `HTTPException(400, "WeatherStack API
Error")`) but that exception is raised inside the `try` block and the
blanket `except Exception` on line 80 catches it, so the caller actually
observes 500 `"Internal Server Errors"`. The no-insert half of the claim
does hold: the store is returned unchanged. -/
theorem c1_error_body_gives_500_not_400 :
    create_weather_request req0
      (.completed 200 (some (.obj [("error", .obj [("code", .num 101)])])))
      "id1" emptyStorage
      = (.failure 500 "Internal Server Errors", emptyStorage) := rfl

/-- C2: the claim says a completed provider call with a non-success HTTP
status fails with exactly the upstream status. The code never calls
`raise_for_status()`, so `httpx.HTTPStatusError` is never raised and the
handler on lines 77-78 is unreachable: here a completed call with status
404 and a well-formed body without an `"error"` key succeeds and stores
a record instead of failing with 404. -/
theorem c2_upstream_status_ignored :
    create_weather_request req0 (.completed 404 (some body0)) "id1" emptyStorage
      = (.success "id1", insertRecord emptyStorage "id1" record1) := rfl

/-- C3: after a successful creation, looking up the returned identifier
via the full-record endpoint succeeds and the record's `date`,
`location` and `notes` fields are exactly the submitted values. -/
theorem create_then_get_roundtrip (request : WeatherRequest)
    (provider : ProviderBehavior) (weather_id rid : String)
    (storage storage' : Store)
    (h : create_weather_request request provider weather_id storage =
      (.success rid, storage')) :
    ∃ record, (get_weather_data rid storage').1 = .ok record ∧
      jsonGet record "date" = some (.str request.date) ∧
      jsonGet record "location" = some (.str request.location) ∧
      jsonGet record "notes" = some (notesJson request.notes) := by
  rcases create_characterization request provider weather_id storage with
    ⟨weather_data, heq⟩ | ⟨status, detail, heq⟩
  · rw [heq] at h
    injection h with h1 h2
    injection h1 with h3
    subst h3
    subst h2
    refine ⟨combined_data request weather_id weather_data, ?_, ?_, ?_, ?_⟩ <;>
      simp [get_weather_data, insertRecord, combined_data, jsonGet,
        jsonGet.lookupField]
  · rw [heq] at h
    exact absurd h (by simp)

/-- C3 witness: the concrete creation of `store1` round-trips. -/
theorem create_then_get_roundtrip_witness :
    ∃ record, (get_weather_data "id1" store1).1 = .ok record ∧
      jsonGet record "date" = some (.str "2024-01-01") ∧
      jsonGet record "location" = some (.str "Paris") ∧
      jsonGet record "notes" = some (notesJson (some "trip")) :=
  create_then_get_roundtrip req0 provider0 "id1" "id1" emptyStorage store1 rfl

/-- C4: creation is atomic. Either the provider round-trip is acceptable
and the result is the fresh identifier with exactly one record inserted
(the combined record under that identifier), or the handler fails, the
store component is returned untouched, and the outcome carries a status
and detail but no identifier. -/
theorem create_atomic (request : WeatherRequest)
    (provider : ProviderBehavior) (weather_id : String) (storage : Store) :
    (∃ weather_data,
       create_weather_request request provider weather_id storage =
         (.success weather_id,
          insertRecord storage weather_id
            (combined_data request weather_id weather_data)))
    ∨ ((create_weather_request request provider weather_id storage).2 = storage ∧
       ∃ status detail,
         (create_weather_request request provider weather_id storage).1 =
           .failure status detail) := by
  rcases create_characterization request provider weather_id storage with
    ⟨weather_data, heq⟩ | ⟨status, detail, heq⟩
  · exact .inl ⟨weather_data, heq⟩
  · exact .inr ⟨by rw [heq], status, detail, by rw [heq]⟩

/-- C5: in every reachable store state, every key present maps to a
record whose `"weather id"` field equals that key. -/
theorem store_key_matches_record_id (s : Store) (h : Reachable s) :
    ∀ k v, s k = some v → jsonGet v "weather id" = some (.str k) := by
  induction h with
  | start =>
    intro k v hk
    simp [emptyStorage] at hk
  | create request provider weather_id hr ih =>
    rename_i s
    intro k v hk
    rcases create_store_cases request provider weather_id s with
      ⟨weather_data, h2⟩ | h2
    · rw [h2] at hk
      unfold insertRecord at hk
      by_cases hke : k = weather_id
      · subst hke
        rw [if_pos rfl] at hk
        injection hk with hv
        subst hv
        simp [combined_data, jsonGet, jsonGet.lookupField]
      · rw [if_neg hke] at hk
        exact ih k v hk
    · rw [h2] at hk
      exact ih k v hk
  | readFull weather_id hr ih =>
    intro k v hk
    rw [get_weather_data_store] at hk
    exact ih k v hk
  | readAstro weather_id hr ih =>
    intro k v hk
    rw [get_astronomy_data_store] at hk
    exact ih k v hk
  | readLocation weather_id hr ih =>
    intro k v hk
    rw [get_precise_location_store] at hk
    exact ih k v hk
  | readAirQuality weather_id hr ih =>
    intro k v hk
    rw [get_air_quality_data_store] at hk
    exact ih k v hk

/-- C5 witness: in the concrete reachable store `store1`, the record
under `"id1"` carries `"weather id" = "id1"`. -/
theorem store_key_matches_record_id_witness :
    jsonGet record1 "weather id" = some (.str "id1") :=
  store_key_matches_record_id store1
    (Reachable.create req0 provider0 "id1" Reachable.start) "id1" record1 rfl

/-- C6: for any identifier present in the store, each sub-view whose
fixed path traversal fails returns the data-unavailable outcome (404,
`"No data available"`, distinct from the missing-record message), and
each sub-view succeeds only with exactly the traversed sub-object (never
a truncated substitute); moreover a creation whose parsed body lacks
such sections (any object body without an `"error"` key) still
succeeds. -/
theorem subview_missing_data_handling (weather_id : String)
    (storage : Store) (data : Json) (h : storage weather_id = some data) :
    (astroPath data = none →
       get_astronomy_data weather_id storage =
         (.failure 404 "No data available", storage)) ∧
    (locationPath data = none →
       get_precise_location weather_id storage =
         (.failure 404 "No data available", storage)) ∧
    (airQualityPath data = none →
       get_air_quality_data weather_id storage =
         (.failure 404 "No data available", storage)) ∧
    (∀ payload, (get_astronomy_data weather_id storage).1 = .ok payload →
       astroPath data = some payload) ∧
    (∀ payload, (get_precise_location weather_id storage).1 = .ok payload →
       locationPath data = some payload) ∧
    (∀ payload, (get_air_quality_data weather_id storage).1 = .ok payload →
       airQualityPath data = some payload) ∧
    ("No data available" ≠ "Weather data not found") ∧
    (∀ (request : WeatherRequest) (fresh_id : String) (status : Nat)
       (fields : List (String × Json)), hasErrorKey fields = false →
       create_weather_request request (.completed status (some (.obj fields)))
           fresh_id storage =
         (.success fresh_id,
          insertRecord storage fresh_id
            (combined_data request fresh_id (.obj fields)))) := by
  refine ⟨?_, ?_, ?_, ?_, ?_, ?_, by decide, ?_⟩
  · intro hp
    simp [get_astronomy_data, h, hp]
  · intro hp
    simp [get_precise_location, h, hp]
  · intro hp
    simp [get_air_quality_data, h, hp]
  · intro payload hp
    cases hc : astroPath data with
    | none => simp [get_astronomy_data, h, hc] at hp
    | some astro =>
      simp [get_astronomy_data, h, hc] at hp
      subst hp
      rfl
  · intro payload hp
    cases hc : locationPath data with
    | none => simp [get_precise_location, h, hc] at hp
    | some location =>
      simp [get_precise_location, h, hc] at hp
      subst hp
      rfl
  · intro payload hp
    cases hc : airQualityPath data with
    | none => simp [get_air_quality_data, h, hc] at hp
    | some air =>
      simp [get_air_quality_data, h, hc] at hp
      subst hp
      rfl
  · intro request fresh_id status fields hf
    have herr : errorIn (.obj fields) = .ok false := by simp [errorIn, hf]
    simp [create_weather_request, herr]

/-- C6 witness: `store1` stores a body with no astronomy, location or
air-quality section; all three sub-views return the data-unavailable
outcome, and a further creation with such a body still succeeds. -/
theorem subview_missing_data_handling_witness :
    get_astronomy_data "id1" store1 =
      (.failure 404 "No data available", store1) ∧
    get_precise_location "id1" store1 =
      (.failure 404 "No data available", store1) ∧
    get_air_quality_data "id1" store1 =
      (.failure 404 "No data available", store1) ∧
    create_weather_request req0 (.completed 200 (some body0)) "id2" store1 =
      (.success "id2",
       insertRecord store1 "id2" (combined_data req0 "id2" body0)) := by
  have t := subview_missing_data_handling "id1" store1 record1 rfl
  exact ⟨t.1 rfl, t.2.1 rfl, t.2.2.1 rfl,
    t.2.2.2.2.2.2.2 req0 "id2" 200 _ rfl⟩

/-- C7: for any identifier absent from the store, each of the four read
endpoints returns 404 with the missing-record message. -/
theorem missing_id_not_found (weather_id : String) (storage : Store)
    (h : storage weather_id = none) :
    get_weather_data weather_id storage =
      (.failure 404 "Weather data not found", storage) ∧
    get_astronomy_data weather_id storage =
      (.failure 404 "Weather data not found", storage) ∧
    get_precise_location weather_id storage =
      (.failure 404 "Weather data not found", storage) ∧
    get_air_quality_data weather_id storage =
      (.failure 404 "Weather data not found", storage) := by
  refine ⟨?_, ?_, ?_, ?_⟩ <;>
    simp [get_weather_data, get_astronomy_data, get_precise_location,
      get_air_quality_data, h]

/-- C7 witness: the identifier `"missing"` is absent from `store1` and
all four read endpoints return the missing-record outcome. -/
theorem missing_id_not_found_witness :
    get_weather_data "missing" store1 =
      (.failure 404 "Weather data not found", store1) ∧
    get_astronomy_data "missing" store1 =
      (.failure 404 "Weather data not found", store1) ∧
    get_precise_location "missing" store1 =
      (.failure 404 "Weather data not found", store1) ∧
    get_air_quality_data "missing" store1 =
      (.failure 404 "Weather data not found", store1) :=
  missing_id_not_found "missing" store1 rfl

/-- C8: any two provider behaviours reaching the blanket
`except Exception` branch of creation produce identical caller-facing
results, namely the constant 500 `"Internal Server Errors"` — the detail
carries no provider body and no exception content. -/
theorem internal_error_fixed_detail (request₁ request₂ : WeatherRequest)
    (provider₁ provider₂ : ProviderBehavior) (id₁ id₂ : String)
    (storage₁ storage₂ : Store)
    (h₁ : internalBranch provider₁ = true)
    (h₂ : internalBranch provider₂ = true) :
    (create_weather_request request₁ provider₁ id₁ storage₁).1 =
      (create_weather_request request₂ provider₂ id₂ storage₂).1 ∧
    (create_weather_request request₁ provider₁ id₁ storage₁).1 =
      .failure 500 "Internal Server Errors" := by
  have r₁ := internal_branch_result request₁ provider₁ id₁ storage₁ h₁
  have r₂ := internal_branch_result request₂ provider₂ id₂ storage₂ h₂
  exact ⟨r₁.trans r₂.symm, r₁⟩

/-- C8 witness: a malformed-JSON body and a non-dict body reaching the
internal branch under different requests, identifiers and stores yield
the same fixed 500 response. -/
theorem internal_error_fixed_detail_witness :
    (create_weather_request req0 (.completed 200 none) "a" emptyStorage).1 =
      (create_weather_request { date := "d", location := "L", notes := none }
        (.completed 503 (some (.num 7))) "b" store1).1 ∧
    (create_weather_request req0 (.completed 200 none) "a" emptyStorage).1 =
      .failure 500 "Internal Server Errors" :=
  internal_error_fixed_detail req0
    { date := "d", location := "L", notes := none }
    (.completed 200 none) (.completed 503 (some (.num 7))) "a" "b"
    emptyStorage store1 rfl rfl

/-- C9: records are never mutated after creation — each of the four read
handlers returns its input store unchanged, and a successful creation
changes no key other than the returned identifier, under which it stores
one record. -/
theorem records_never_mutated :
    (∀ (weather_id : String) (storage : Store),
       (get_weather_data weather_id storage).2 = storage) ∧
    (∀ (weather_id : String) (storage : Store),
       (get_astronomy_data weather_id storage).2 = storage) ∧
    (∀ (weather_id : String) (storage : Store),
       (get_precise_location weather_id storage).2 = storage) ∧
    (∀ (weather_id : String) (storage : Store),
       (get_air_quality_data weather_id storage).2 = storage) ∧
    (∀ (request : WeatherRequest) (provider : ProviderBehavior)
       (weather_id rid : String) (storage storage' : Store),
       create_weather_request request provider weather_id storage =
         (.success rid, storage') →
       (∀ k, k ≠ rid → storage' k = storage k) ∧
       ∃ record, storage' rid = some record) := by
  refine ⟨get_weather_data_store, get_astronomy_data_store,
    get_precise_location_store, get_air_quality_data_store, ?_⟩
  intro request provider weather_id rid storage storage' h
  rcases create_characterization request provider weather_id storage with
    ⟨weather_data, heq⟩ | ⟨status, detail, heq⟩
  · rw [heq] at h
    injection h with h1 h2
    injection h1 with h3
    subst h3
    subst h2
    constructor
    · intro k hk
      simp [insertRecord, hk]
    · exact ⟨combined_data request weather_id weather_data,
        by simp [insertRecord]⟩
  · rw [heq] at h
    exact absurd h (by simp)

/-- C9 witness: on `store1`, every read returns the store unchanged; the
creation that produced `store1` left the unrelated key `"other"` as it
was in the empty store and stored one record under `"id1"`. -/
theorem records_never_mutated_witness :
    (get_weather_data "id1" store1).2 = store1 ∧
    (get_astronomy_data "id1" store1).2 = store1 ∧
    (get_precise_location "id1" store1).2 = store1 ∧
    (get_air_quality_data "id1" store1).2 = store1 ∧
    store1 "other" = emptyStorage "other" ∧
    (∃ record, store1 "id1" = some record) := by
  have t := records_never_mutated
  have c := t.2.2.2.2 req0 provider0 "id1" "id1" emptyStorage store1 rfl
  exact ⟨t.1 "id1" store1, t.2.1 "id1" store1, t.2.2.1 "id1" store1,
    t.2.2.2.1 "id1" store1, c.1 "other" (by decide), c.2⟩

/-- C10: in every reachable store state, every stored value is the
object with exactly the five keys `"weather id"`, `"date"`,
`"location"`, `"notes"`, `"weather_api_response"`, holding the creating
request's fields and the provider's parsed body. -/
theorem stored_record_shape (s : Store) (h : Reachable s) :
    ∀ k v, s k = some v →
      ∃ (request : WeatherRequest) (body : Json),
        v = .obj [("weather id", .str k),
                  ("date", .str request.date),
                  ("location", .str request.location),
                  ("notes", notesJson request.notes),
                  ("weather_api_response", body)] := by
  induction h with
  | start =>
    intro k v hk
    simp [emptyStorage] at hk
  | create request provider weather_id hr ih =>
    rename_i s
    intro k v hk
    rcases create_store_cases request provider weather_id s with
      ⟨weather_data, h2⟩ | h2
    · rw [h2] at hk
      unfold insertRecord at hk
      by_cases hke : k = weather_id
      · subst hke
        rw [if_pos rfl] at hk
        injection hk with hv
        subst hv
        exact ⟨request, weather_data, by simp [combined_data]⟩
      · rw [if_neg hke] at hk
        exact ih k v hk
    · rw [h2] at hk
      exact ih k v hk
  | readFull weather_id hr ih =>
    intro k v hk
    rw [get_weather_data_store] at hk
    exact ih k v hk
  | readAstro weather_id hr ih =>
    intro k v hk
    rw [get_astronomy_data_store] at hk
    exact ih k v hk
  | readLocation weather_id hr ih =>
    intro k v hk
    rw [get_precise_location_store] at hk
    exact ih k v hk
  | readAirQuality weather_id hr ih =>
    intro k v hk
    rw [get_air_quality_data_store] at hk
    exact ih k v hk

/-- C10 witness: the record stored in the concrete reachable store
`store1` has exactly the five-key shape. -/
theorem stored_record_shape_witness :
    ∃ (request : WeatherRequest) (body : Json),
      record1 = .obj [("weather id", .str "id1"),
                      ("date", .str request.date),
                      ("location", .str request.location),
                      ("notes", notesJson request.notes),
                      ("weather_api_response", body)] :=
  stored_record_shape store1
    (Reachable.create req0 provider0 "id1" Reachable.start) "id1" record1 rfl

end WeatherSystem
